import Mathlib

/-!
Shallow embedding of the pizza.hunt front-end pipeline (src/scripts/main.js).

The repository file concatenates three near-duplicate variants of the same
browser script.  The definitions below embed the place-normalization and
search/load pipeline:

* `buildAddress`            — main.js lines 618–624
* `normalizeElement`        — the per-element Overpass mapping of the
                              center-fallback variant, lines 341–368
* `overpassNormalize`       — `data.elements.map(...).filter(Boolean)`, lines 340–369
* `normalizeElementV3` and
  `overpassNormalizeV3`     — the node-only variant's mapping, lines 595–606
* `loadPizzaPlacesOverpass` / `loadPizzaPlacesStructured`
                            — the two branches of `loadPizzaPlaces`, lines 307–391
                              (the structured branch also matches lines 75–99)
* `searchCity`              — lines 690–725
* `updateLocation`          — lines 727–732 (identical at 491–496)
* `searchCurrentArea`       — lines 752–772 (identical at 203–215)

JavaScript numbers are modelled as `ℚ` (no NaN/Infinity arise in the modelled
paths), absent values (`undefined`) as `Option`, and JS truthiness of the
values actually tested in the source (strings and numbers) as the explicit
`jsTruthyStr` / `jsTruthyNum` functions.  Network effects are made explicit:
each operation takes the upstream response as an argument (the value the
`await`ed fetch/json pair produced, or the exception it threw) and returns
the new DOM/global state, the list of network requests it issued, and the
error-taxonomy outcome of the run.
-/

namespace PizzaHunt

/-- JS truthiness of a possibly-absent string: `undefined` and `""` are falsy. -/
def jsTruthyStr : Option String → Bool
  | none => false
  | some s => s != ""

/-- JS `x || d` for a possibly-absent string `x` and a string default `d`. -/
def jsOrStr (o : Option String) (d : String) : String :=
  match o with
  | none => d
  | some s => if s = "" then d else s

/-- JS truthiness of a possibly-absent number: `undefined` and `0` are falsy. -/
def jsTruthyNum : Option ℚ → Bool
  | none => false
  | some x => x != 0

/-- JS `String.prototype.trim`: strip leading and trailing whitespace. -/
def jsTrim (s : String) : String :=
  String.mk
    (((s.data.dropWhile Char.isWhitespace).reverse.dropWhile Char.isWhitespace).reverse)

/-- The OSM tag fields read by the pipeline; every tag may be absent. -/
structure Tags where
  name : Option String := none
  amenity : Option String := none
  shop : Option String := none
  cuisine : Option String := none
  phone : Option String := none
  website : Option String := none
  opening_hours : Option String := none
  takeaway : Option String := none
  delivery : Option String := none
  /-- tag `addr:housenumber` -/
  addrHousenumber : Option String := none
  /-- tag `addr:street` -/
  addrStreet : Option String := none
  /-- tag `addr:city` -/
  addrCity : Option String := none
deriving DecidableEq

/-- The empty tags object `{}`. -/
def Tags.empty : Tags := {}

/--
The `parts` array built by `buildAddress` (main.js 619–622): push each of the
three address tags that is truthy, in housenumber/street/city order.
-/
def addressParts (tags : Tags) : List String :=
  (if jsTruthyStr tags.addrHousenumber then [tags.addrHousenumber.getD ""] else []) ++
  (if jsTruthyStr tags.addrStreet then [tags.addrStreet.getD ""] else []) ++
  (if jsTruthyStr tags.addrCity then [tags.addrCity.getD ""] else [])

/--
`buildAddress` (main.js 618–624): `parts.join(', ') || ''` — the `|| ''`
replaces a falsy (empty) join result with `''`.
-/
def buildAddress (tags : Tags) : String :=
  let joined := String.intercalate ", " (addressParts tags)
  if joined = "" then "" else joined

/-- An Overpass `center` object for area features. -/
structure Center where
  lat : ℚ
  lon : ℚ
deriving DecidableEq

/-- One raw Overpass element: optional direct coordinates, optional center, optional tags. -/
structure Element where
  id : Option ℤ := none
  lat : Option ℚ := none
  lon : Option ℚ := none
  center : Option Center := none
  tags : Option Tags := none
deriving DecidableEq

/-- The normalized display record built by the center-fallback variant (lines 354–367). -/
structure Place where
  id : Option ℤ := none
  lat : ℚ
  lng : ℚ
  name : String := "Pizza Place"
  cuisine : String := "pizza"
  amenity : String := "restaurant"
  phone : String := ""
  website : String := ""
  address : String := ""
  opening_hours : String := ""
  takeaway : String := ""
  delivery : String := ""
deriving DecidableEq

/--
Per-element Overpass mapping of the center-fallback variant (main.js 341–368):
`if (el.lat && el.lon)` take direct coordinates, `else if (el.center)` take the
center, `else return null` (modelled as `none`).
-/
def normalizeElement (el : Element) : Option Place :=
  let coords : Option (ℚ × ℚ) :=
    if jsTruthyNum el.lat && jsTruthyNum el.lon then
      some (el.lat.getD 0, el.lon.getD 0)
    else
      match el.center with
      | some c => some (c.lat, c.lon)
      | none => none
  match coords with
  | none => none
  | some (lat, lng) =>
    let tags := el.tags.getD Tags.empty
    some
      { id := el.id
        lat := lat
        lng := lng
        name := jsOrStr tags.name "Pizza Place"
        cuisine := jsOrStr tags.cuisine "pizza"
        amenity := jsOrStr tags.amenity (jsOrStr tags.shop "restaurant")
        phone := jsOrStr tags.phone ""
        website := jsOrStr tags.website ""
        address := buildAddress tags
        opening_hours := jsOrStr tags.opening_hours ""
        takeaway := jsOrStr tags.takeaway ""
        delivery := jsOrStr tags.delivery "" }

/--
`data.elements.map(el => ...).filter(Boolean)` of the center-fallback variant
(main.js 340–369): the `null` entries produced for unresolvable elements are
removed, which is exactly `filterMap`.
-/
def overpassNormalize (els : List Element) : List Place :=
  els.filterMap normalizeElement

/--
The record built by the node-only variant's mapping (main.js 595–606): the
coordinates are copied verbatim (`lat: element.lat, lng: element.lon`), so they
stay possibly-absent; there is no `id`/`cuisine` field and no center fallback.
-/
structure PlaceV3 where
  lat : Option ℚ := none
  lng : Option ℚ := none
  name : String := "Pizza Place"
  amenity : String := "restaurant"
  address : String := ""
  phone : String := ""
  website : String := ""
  opening_hours : String := ""
  takeaway : String := ""
  delivery : String := ""
deriving DecidableEq

/-- Per-element mapping of the node-only variant (main.js 595–606). -/
def normalizeElementV3 (el : Element) : PlaceV3 :=
  { lat := el.lat
    lng := el.lon
    name := jsOrStr (el.tags.bind Tags.name) "Pizza Place"
    amenity := jsOrStr (el.tags.bind Tags.amenity) "restaurant"
    address := buildAddress (el.tags.getD Tags.empty)
    phone := jsOrStr (el.tags.bind Tags.phone) ""
    website := jsOrStr (el.tags.bind Tags.website) ""
    opening_hours := jsOrStr (el.tags.bind Tags.opening_hours) ""
    takeaway := jsOrStr (el.tags.bind Tags.takeaway) ""
    delivery := jsOrStr (el.tags.bind Tags.delivery) "" }

/--
`data.elements.map(element => ({...}))` of the node-only variant
(main.js 594–606): a plain map, with no filtering step.
-/
def overpassNormalizeV3 (els : List Element) : List PlaceV3 :=
  els.map normalizeElementV3

/-- An element has resolvable coordinates iff its direct `lat`/`lon` are both
truthy, or a `center` is present — the condition the mapping at lines 343–351
branches on. -/
def hasCoords (el : Element) : Bool :=
  (jsTruthyNum el.lat && jsTruthyNum el.lon) || el.center.isSome

/--
The spec's error taxonomy (spec §7) attached to the code paths that realize
it: the `catch` branches (transport/JSON failure), the `!data.success`
envelope branch, the empty-input guard of `searchCity`, and the zero-match
branch of the Nominatim lookup.
-/
inductive AppError where
  | validationError
  | networkError (msg : String)
  | upstreamFormatError (msg : String)
  | notFoundError
deriving DecidableEq

/-- The bounding box computed at main.js 316–320: `center ± 0.05` per axis. -/
structure Bbox where
  south : ℚ
  north : ℚ
  west : ℚ
  east : ℚ
deriving DecidableEq

/-- `south = lat - radius`, `north = lat + radius`, `west = lng - radius`,
`east = lng + radius` with `radius = 0.05` (main.js 316–320). -/
def mkBbox (lat lng : ℚ) : Bbox :=
  { south := lat - (5/100 : ℚ)
    north := lat + (5/100 : ℚ)
    west := lng - (5/100 : ℚ)
    east := lng + (5/100 : ℚ) }

/-- A network request issued by the pipeline. -/
inductive Request where
  /-- the Overpass `POST` whose query body carries the bounding box (main.js 322–337) -/
  | overpassPOST (box : Bbox)
  /-- the structured-API `GET /api/pizza-places?lat=&lng=&radius=` (main.js 372–374) -/
  | structuredGET (lat lng radius : ℚ)
  /-- the Nominatim `GET /search?q=...&format=json&limit=1` (main.js 702–711) -/
  | geocodeGET (q : String)
deriving DecidableEq

/--
The observable browser state the pipeline mutates: the shared search center
(globals `currentLat` / `currentLng`), the rendered marker set (the contents
of `markerCluster`), and the status line set by `updateStatus`.
-/
structure St where
  currentLat : ℚ
  currentLng : ℚ
  markers : List Place
  statusMsg : String
  statusType : String
deriving DecidableEq

/-- `updateStatus(message, type)` (main.js 298–302). -/
def updateStatus (message ty : String) (st : St) : St :=
  { st with statusMsg := message, statusType := ty }

/-- `addPizzaMarkers(places)` (main.js 396–417): `markerCluster.clearLayers()`
then one marker per place — the rendered set becomes exactly `places`. -/
def addPizzaMarkers (places : List Place) (st : St) : St :=
  { st with markers := places }

/-- The initial globals (main.js 10–11): default center Berlin, no markers. -/
def initialState : St :=
  { currentLat := (5252/100 : ℚ)
    currentLng := (13405/1000 : ℚ)
    markers := []
    statusMsg := ""
    statusType := "" }

/-- Outcome of the `await fetch(...)` / `await response.json()` pair in the
Overpass branch: either a thrown transport/parse error, or the decoded
`data.elements` array. -/
inductive OverpassResult where
  | failure (msg : String)
  | ok (elements : List Element)

/-- Outcome of the fetch/json pair in the structured-API branch: a thrown
transport/parse error, or the decoded `{success, error, places}` envelope. -/
inductive StructuredResult where
  | failure (msg : String)
  | envelope (success : Bool) (error : String) (places : List Place)

/--
The Overpass branch of `loadPizzaPlaces` (main.js 307–391 with
`API_BASE.includes('overpass-api.de')` true): set the loading status, issue
one POST with the bbox around the current center, then either render the
normalized elements and report success, or (in `catch`) report the error and
leave the markers untouched.  Returns (new state, issued requests, outcome).
-/
def loadPizzaPlacesOverpass (r : OverpassResult) (st : St) : St × List Request × Option AppError :=
  let st0 := updateStatus "Loading pizza places..." "" st
  let req := Request.overpassPOST (mkBbox st0.currentLat st0.currentLng)
  match r with
  | .failure msg =>
    (updateStatus ("Error: " ++ msg) "error" st0, [req], some (.networkError msg))
  | .ok els =>
    let places := overpassNormalize els
    let st1 := addPizzaMarkers places st0
    (updateStatus ("Found " ++ toString places.length ++ " pizza places!") "success" st1,
      [req], none)

/--
The structured-API branch of `loadPizzaPlaces` (main.js 370–381, identical to
75–99): issue one GET with the current center, then: `catch` → error status;
`!data.success` → surface `data.error` and `return` before `addPizzaMarkers`;
otherwise render `data.places`.
-/
def loadPizzaPlacesStructured (r : StructuredResult) (st : St) :
    St × List Request × Option AppError :=
  let st0 := updateStatus "Loading pizza places..." "" st
  let req := Request.structuredGET st0.currentLat st0.currentLng (5/100 : ℚ)
  match r with
  | .failure msg =>
    (updateStatus ("Error: " ++ msg) "error" st0, [req], some (.networkError msg))
  | .envelope success error places =>
    if success then
      let st1 := addPizzaMarkers places st0
      (updateStatus ("Found " ++ toString places.length ++ " pizza places!") "success" st1,
        [req], none)
    else
      (updateStatus ("Error: " ++ error) "error" st0, [req], some (.upstreamFormatError error))

/--
`updateLocation(lat, lng)` (main.js 727–732, identical at 491–496): overwrite
the shared center, re-center the map widget (external collaborator, not
modelled), and call `loadPizzaPlaces()` once.  `r` is the upstream response
that single load will receive.
-/
def updateLocation (lat lng : ℚ) (r : OverpassResult) (st : St) :
    St × List Request × Option AppError :=
  let st1 := { st with currentLat := lat, currentLng := lng }
  loadPizzaPlacesOverpass r st1

/-- One Nominatim match: parsed coordinates and the display label.  The
source applies `parseFloat` to the textual `lat`/`lon` fields; the model
carries the parsed values. -/
structure GeoMatch where
  lat : ℚ
  lon : ℚ
  display_name : String

/-- Outcome of the Nominatim fetch/json pair: a thrown transport/parse error,
or the decoded array of matches. -/
inductive GeoResult where
  | failure (msg : String)
  | matches (ms : List GeoMatch)

/--
`searchCity()` of the Nominatim variant (main.js 690–725): trim the input;
if empty, show a validation message and return before any fetch; otherwise
issue one geocoding GET; zero matches → "City not found"; a match →
`updateLocation` with the parsed coordinates (which issues the follow-up
place fetch, receiving `lr`) and a success status.  `catch` → error status.
-/
def searchCity (input : String) (r : GeoResult) (lr : OverpassResult) (st : St) :
    St × List Request × Option AppError :=
  let cityName := jsTrim input
  if cityName = "" then
    (updateStatus "Please enter a city name" "error" st, [], some .validationError)
  else
    let st0 := updateStatus "Searching for city..." "" st
    let req := Request.geocodeGET cityName
    match r with
    | .failure msg =>
      (updateStatus ("City search error: " ++ msg) "error" st0, [req], some (.networkError msg))
    | .matches ms =>
      match ms with
      | [] =>
        (updateStatus "City not found" "error" st0, [req], some .notFoundError)
      | m :: _ =>
        let (st1, reqs, e) := updateLocation m.lat m.lon lr st0
        (updateStatus ("Found " ++ m.display_name) "success" st1, req :: reqs, e)

/--
`searchCurrentArea()` (main.js 752–772, identical at 203–215): read the map
center and zoom (arguments here); if `zoom < 10`, show an error status and
return before touching the shared center or fetching; otherwise overwrite the
center with the map center and call `loadPizzaPlaces()` once.
-/
def searchCurrentArea (centerLat centerLng zoom : ℚ) (r : OverpassResult) (st : St) :
    St × List Request × Option AppError :=
  if zoom < 10 then
    (updateStatus "Please zoom in more to search a smaller area" "error" st, [], none)
  else
    let st0 := updateStatus "Searching pizza places in current area..." "" st
    let st1 := { st0 with currentLat := centerLat, currentLng := centerLng }
    loadPizzaPlacesOverpass r st1

/-! ## Theorems -/

/-- The final `if` of `buildAddress` is the identity: a falsy join result is
already the empty string. -/
theorem buildAddress_eq_intercalate (tags : Tags) :
    buildAddress tags = String.intercalate ", " (addressParts tags) := by
  by_cases hj : String.intercalate ", " (addressParts tags) = "" <;>
    simp [buildAddress, hj]

/-- `filterMap` drops exactly the inputs mapped to `none`. -/
theorem filterMap_length_add_countP_isNone {α β : Type} (f : α → Option β) (l : List α) :
    (l.filterMap f).length + l.countP (fun a => (f a).isNone) = l.length := by
  induction l with
  | nil => rfl
  | cons a l ih =>
    rw [List.filterMap_cons, List.countP_cons]
    cases hfa : f a <;> simp [hfa, ← ih] <;> omega

/--
Claim C1 (amended): in the center-fallback Overpass normalization
(main.js 340–369), an element contributes a place exactly when its coordinates
are resolvable (truthy direct `lat`/`lon`, or a `center` fallback), and the
output length is the input length minus the count of unresolvable elements.
The claim as stated also covers the node-only normalization at main.js
594–606, where it fails — see the counterexample.
-/
theorem C1_centerFallback_excludes_unresolved (els : List Element) :
    (∀ el : Element, (normalizeElement el).isSome = hasCoords el) ∧
    (overpassNormalize els).length =
      els.length - els.countP (fun el => !hasCoords el) := by
  have hsome : ∀ el : Element, (normalizeElement el).isSome = hasCoords el := by
    intro el
    cases hb : (jsTruthyNum el.lat && jsTruthyNum el.lon) <;>
      cases hc : el.center <;>
        simp [normalizeElement, hasCoords, hb, hc]
  refine ⟨hsome, ?_⟩
  have hcount : els.countP (fun el => (normalizeElement el).isNone) =
      els.countP (fun el => !hasCoords el) := by
    apply List.countP_congr
    intro el _
    rw [← hsome el]
    cases normalizeElement el <;> simp
  have hlen := filterMap_length_add_countP_isNone normalizeElement els
  rw [hcount] at hlen
  unfold overpassNormalize
  omega

/-- An element with no direct coordinates and no center. -/
def elementNoCoords : Element := {}

/--
Claim C1 counterexample: the node-only normalization (main.js 594–606) never
excludes an element.  For a single element lacking direct coordinates and a
center, the claim predicts an output of length `1 - 1 = 0`, but the code
produces a list of length 1, so the coordinate-less element still contributes
a record.
-/
theorem C1_nodeOnly_counterexample :
    elementNoCoords.lat = none ∧ elementNoCoords.lon = none ∧
    elementNoCoords.center = none ∧
    (overpassNormalizeV3 [elementNoCoords]).length = 1 ∧
    (overpassNormalizeV3 [elementNoCoords]).length ≠
      [elementNoCoords].length -
        ([elementNoCoords].countP (fun el => !hasCoords el)) := by
  refine ⟨rfl, rfl, rfl, rfl, ?_⟩
  decide

/--
Claim C2: `buildAddress` joins the housenumber, street and city tags, in that
order, with `", "` as separator and no separator next to missing content:
with all three present the result is `h ++ ", " ++ s ++ ", " ++ c`; with only
a city it is the city alone; with none of the three it is `""`.
-/
theorem C2_buildAddress_join (h s c : String)
    (hh : h ≠ "") (hs : s ≠ "") (hc : c ≠ "") :
    buildAddress { addrHousenumber := some h, addrStreet := some s, addrCity := some c } =
      h ++ ", " ++ s ++ ", " ++ c ∧
    buildAddress { addrCity := some c } = c ∧
    buildAddress ({} : Tags) = "" := by
  refine ⟨?_, ?_, rfl⟩
  · rw [buildAddress_eq_intercalate]
    simp only [addressParts, jsTruthyStr, bne_iff_ne, ne_eq, Option.getD_some]
    rw [if_pos hh, if_pos hs, if_pos hc]
    rfl
  · rw [buildAddress_eq_intercalate]
    simp only [addressParts, jsTruthyStr, bne_iff_ne, ne_eq, Option.getD_some]
    rw [if_pos hc]
    rfl

/-- Claim C2 witness: the three concrete evaluations from the claim. -/
theorem C2_buildAddress_join_witness :
    buildAddress { addrHousenumber := some "10", addrStreet := some "Main St",
                   addrCity := some "Springfield" } =
      "10" ++ ", " ++ "Main St" ++ ", " ++ "Springfield" ∧
    buildAddress { addrCity := some "Springfield" } = "Springfield" ∧
    buildAddress ({} : Tags) = "" :=
  C2_buildAddress_join "10" "Main St" "Springfield"
    (by decide) (by decide) (by decide)

/--
Claim C9: direct coordinates are detected by JS truthiness (`el.lat && el.lon`,
main.js 343–351), so an element whose `lat` or `lon` equals 0 is normalized
exactly as if its direct coordinates were absent: the center fallback is used
when present, and otherwise the element is discarded.
-/
theorem C9_zero_coordinate_treated_absent (el : Element)
    (h : el.lat = some 0 ∨ el.lon = some 0) :
    normalizeElement el = normalizeElement { el with lat := none, lon := none } ∧
    (el.center = none → normalizeElement el = none) ∧
    (∀ c : Center, el.center = some c →
      ∃ p : Place, normalizeElement el = some p ∧ p.lat = c.lat ∧ p.lng = c.lon) := by
  have hb : (jsTruthyNum el.lat && jsTruthyNum el.lon) = false := by
    rcases h with h | h <;> simp [jsTruthyNum, h]
  refine ⟨?_, ?_, ?_⟩
  · unfold normalizeElement
    rw [hb]
    simp [jsTruthyNum]
  · intro hc
    unfold normalizeElement
    rw [hb]
    simp [hc]
  · intro c hc
    unfold normalizeElement
    rw [hb]
    simp [hc]

/-- A concrete element whose direct latitude is the (truthy-falsy) value 0. -/
def elementZeroLat : Element :=
  { lat := some 0, lon := some 7, center := some { lat := 1, lon := 2 } }

/-- Claim C9 witness: an element with `lat = 0`, `lon = 7` and a center at
`(1, 2)` is normalized via the center fallback. -/
theorem C9_zero_coordinate_treated_absent_witness :
    normalizeElement elementZeroLat =
      normalizeElement { elementZeroLat with lat := none, lon := none } ∧
    ∃ p : Place, normalizeElement elementZeroLat = some p ∧ p.lat = 1 ∧ p.lng = 2 := by
  have h := C9_zero_coordinate_treated_absent elementZeroLat (Or.inl rfl)
  exact ⟨h.1, h.2.2 { lat := 1, lon := 2 } rfl⟩

/--
Claim C3: a structured-API envelope with `success: false, error: err` makes
`loadPizzaPlaces` surface an UpstreamFormatError carrying `err` (status
`"Error: " ++ err`) and return before `addPizzaMarkers`, so the rendered
marker set is unchanged — zero markers are rendered from that response.
-/
theorem C3_envelope_failure_renders_nothing (err : String) (places : List Place) (st : St) :
    (loadPizzaPlacesStructured (.envelope false err places) st).1.markers = st.markers ∧
    (loadPizzaPlacesStructured (.envelope false err places) st).2.2 =
      some (.upstreamFormatError err) ∧
    (loadPizzaPlacesStructured (.envelope false err places) st).1.statusMsg =
      "Error: " ++ err ∧
    (loadPizzaPlacesStructured (.envelope false err places) st).1.statusType = "error" := by
  simp [loadPizzaPlacesStructured, updateStatus]

/--
Claim C4: a transport failure or non-JSON response makes `loadPizzaPlaces`
(in either upstream configuration) surface a NetworkError as a status message
and leave the previously rendered marker set unchanged: only the successful
render path reaches `addPizzaMarkers`, which is where markers are cleared.
-/
theorem C4_network_failure_preserves_markers (msg : String) (st : St) :
    (loadPizzaPlacesStructured (.failure msg) st).1.markers = st.markers ∧
    (loadPizzaPlacesStructured (.failure msg) st).2.2 = some (.networkError msg) ∧
    (loadPizzaPlacesStructured (.failure msg) st).1.statusMsg = "Error: " ++ msg ∧
    (loadPizzaPlacesStructured (.failure msg) st).1.statusType = "error" ∧
    (loadPizzaPlacesOverpass (.failure msg) st).1.markers = st.markers ∧
    (loadPizzaPlacesOverpass (.failure msg) st).2.2 = some (.networkError msg) ∧
    (loadPizzaPlacesOverpass (.failure msg) st).1.statusMsg = "Error: " ++ msg := by
  simp [loadPizzaPlacesStructured, loadPizzaPlacesOverpass, updateStatus]

/--
Claim C5: a query that trims to the empty string makes `searchCity` yield the
validation error status without issuing any network request, whatever the
upstream responses would have been.
-/
theorem C5_empty_query_no_network (q : String) (r : GeoResult) (lr : OverpassResult)
    (st : St) (hq : jsTrim q = "") :
    (searchCity q r lr st).2.1 = [] ∧
    (searchCity q r lr st).2.2 = some .validationError ∧
    (searchCity q r lr st).1 = updateStatus "Please enter a city name" "error" st := by
  simp [searchCity, hq]

/-- Claim C5 witness: the whitespace-only query `"   "`. -/
theorem C5_empty_query_no_network_witness :
    (searchCity "   " (.matches []) (.ok []) initialState).2.1 = [] ∧
    (searchCity "   " (.matches []) (.ok []) initialState).2.2 =
      some .validationError ∧
    (searchCity "   " (.matches []) (.ok []) initialState).1 =
      updateStatus "Please enter a city name" "error" initialState :=
  C5_empty_query_no_network "   " (.matches []) (.ok []) initialState (by decide)

/--
Claim C6: a successful location resolution — `updateLocation(lat, lng)` (used
by the geolocation callback and by city search) as well as the explicit
re-center `searchCurrentArea` when its zoom guard passes — replaces the shared
center with the resolved coordinates and issues exactly one place fetch, whose
bounding box is centered on those coordinates.
-/
theorem C6_resolution_triggers_one_fetch (lat lng zoom : ℚ) (r : OverpassResult)
    (st : St) (hz : ¬ zoom < 10) :
    ((updateLocation lat lng r st).1.currentLat = lat ∧
     (updateLocation lat lng r st).1.currentLng = lng ∧
     (updateLocation lat lng r st).2.1 = [Request.overpassPOST (mkBbox lat lng)]) ∧
    ((searchCurrentArea lat lng zoom r st).1.currentLat = lat ∧
     (searchCurrentArea lat lng zoom r st).1.currentLng = lng ∧
     (searchCurrentArea lat lng zoom r st).2.1 =
       [Request.overpassPOST (mkBbox lat lng)]) := by
  cases r <;>
    simp [updateLocation, searchCurrentArea, loadPizzaPlacesOverpass,
      updateStatus, addPizzaMarkers, hz]

/-- Claim C6 witness: resolving to `(1, 2)` at zoom 12 from the initial state. -/
theorem C6_resolution_triggers_one_fetch_witness :
    ((updateLocation 1 2 (.ok []) initialState).1.currentLat = 1 ∧
     (updateLocation 1 2 (.ok []) initialState).1.currentLng = 2 ∧
     (updateLocation 1 2 (.ok []) initialState).2.1 =
       [Request.overpassPOST (mkBbox 1 2)]) ∧
    ((searchCurrentArea 1 2 12 (.ok []) initialState).1.currentLat = 1 ∧
     (searchCurrentArea 1 2 12 (.ok []) initialState).1.currentLng = 2 ∧
     (searchCurrentArea 1 2 12 (.ok []) initialState).2.1 =
       [Request.overpassPOST (mkBbox 1 2)]) :=
  C6_resolution_triggers_one_fetch 1 2 12 (.ok []) initialState (by norm_num)

/--
Claim C7: a geocoding response with zero matches makes `searchCity` fail with
NotFoundError, surfaced as the "City not found" error status, and
NotFoundError is distinct from every NetworkError.
-/
theorem C7_zero_matches_not_found (q : String) (lr : OverpassResult) (st : St)
    (hq : jsTrim q ≠ "") :
    (searchCity q (.matches []) lr st).2.2 = some .notFoundError ∧
    (searchCity q (.matches []) lr st).1.statusMsg = "City not found" ∧
    (searchCity q (.matches []) lr st).1.statusType = "error" ∧
    (∀ msg : String, (AppError.notFoundError : AppError) ≠ .networkError msg) := by
  refine ⟨?_, ?_, ?_, ?_⟩ <;> simp [searchCity, hq, updateStatus]

/-- Claim C7 witness: the query `"Atlantis"` with an empty match list. -/
theorem C7_zero_matches_not_found_witness :
    (searchCity "Atlantis" (.matches []) (.ok []) initialState).2.2 =
      some .notFoundError ∧
    (searchCity "Atlantis" (.matches []) (.ok []) initialState).1.statusMsg =
      "City not found" ∧
    (searchCity "Atlantis" (.matches []) (.ok []) initialState).1.statusType =
      "error" ∧
    (∀ msg : String, (AppError.notFoundError : AppError) ≠ .networkError msg) :=
  C7_zero_matches_not_found "Atlantis" (.ok []) initialState (by decide)

/-- A node element at `(1, 1)`, the payload of fetch A. -/
def elementA : Element := { id := some 1, lat := some 1, lon := some 1 }

/-- A node element at `(2, 2)`, the payload of fetch B. -/
def elementB : Element := { id := some 2, lat := some 2, lon := some 2 }

/--
Claim C8 counterexample: fetches are issued A then B; issuing a request does
not change the observable state, so the trace "issue A, issue B, process B's
response, process A's response" (B's response arrives first) ends in the state
computed below.  Each completion clears the cluster and renders its own
response, so the final marker set equals A's result — the later-completing
response — and differs from B's result, contradicting the claim's conclusion
that it equals B's result.
-/
theorem C8_last_completion_counterexample :
    (loadPizzaPlacesOverpass (.ok [elementA])
        (loadPizzaPlacesOverpass (.ok [elementB]) initialState).1).1.markers =
      overpassNormalize [elementA] ∧
    (loadPizzaPlacesOverpass (.ok [elementA])
        (loadPizzaPlacesOverpass (.ok [elementB]) initialState).1).1.markers ≠
      overpassNormalize [elementB] := by
  refine ⟨rfl, ?_⟩
  decide

/--
Claim C8 (amended): for two overlapping fetches issued A then B where B's
response arrives (and is processed) first and A's second, the final rendered
marker set equals A's result — the later-completing response wins the render,
regardless of issue order and of what the earlier-processed response was.
-/
theorem C8_later_completion_wins (elsA : List Element) (rB : OverpassResult) (st : St) :
    (loadPizzaPlacesOverpass (.ok elsA)
        (loadPizzaPlacesOverpass rB st).1).1.markers = overpassNormalize elsA := by
  cases rB <;>
    simp [loadPizzaPlacesOverpass, updateStatus, addPizzaMarkers]

/--
Claim C10: `searchCurrentArea` at a zoom level below 10 leaves the shared
center, the marker set and (beyond the status line) everything else unchanged,
issues no fetch, and only shows an error status.
-/
theorem C10_low_zoom_leaves_center (clat clng zoom : ℚ) (r : OverpassResult)
    (st : St) (hz : zoom < 10) :
    (searchCurrentArea clat clng zoom r st).1.currentLat = st.currentLat ∧
    (searchCurrentArea clat clng zoom r st).1.currentLng = st.currentLng ∧
    (searchCurrentArea clat clng zoom r st).1.markers = st.markers ∧
    (searchCurrentArea clat clng zoom r st).2.1 = [] ∧
    (searchCurrentArea clat clng zoom r st).2.2 = none ∧
    (searchCurrentArea clat clng zoom r st).1.statusMsg =
      "Please zoom in more to search a smaller area" ∧
    (searchCurrentArea clat clng zoom r st).1.statusType = "error" := by
  simp [searchCurrentArea, hz, updateStatus]

/-- Claim C10 witness: zoom level 8 over the initial state. -/
theorem C10_low_zoom_leaves_center_witness :
    (searchCurrentArea 3 4 8 (.ok []) initialState).1.currentLat =
      initialState.currentLat ∧
    (searchCurrentArea 3 4 8 (.ok []) initialState).1.currentLng =
      initialState.currentLng ∧
    (searchCurrentArea 3 4 8 (.ok []) initialState).1.markers =
      initialState.markers ∧
    (searchCurrentArea 3 4 8 (.ok []) initialState).2.1 = [] ∧
    (searchCurrentArea 3 4 8 (.ok []) initialState).2.2 = none ∧
    (searchCurrentArea 3 4 8 (.ok []) initialState).1.statusMsg =
      "Please zoom in more to search a smaller area" ∧
    (searchCurrentArea 3 4 8 (.ok []) initialState).1.statusType = "error" :=
  C10_low_zoom_leaves_center 3 4 8 (.ok []) initialState (by norm_num)

end PizzaHunt
